import Mathlib

/-!
Shallow embedding of the komga-mangadex-suite manga-downloader service
(`src/manga-downloader/src/main.py`, `download_manager.py`, `mangadex_client.py`)
and proofs about its job lifecycle, image-acquisition pipeline, chapter
discovery/filtering, archive packaging and rate-limited client.

Stateful Python code is modelled by explicit state passing; network
responses are supplied by oracle functions ("scripts") so that every
definition is executable on concrete inputs.
-/

/-! ## Job queue and worker (main.py) -/

/-- Job lifecycle states from `main.py` (`queued`, `running`, `completed`,
`failed`, `canceled`, `aborted`). -/
inductive JobStatus
  | queued
  | running
  | completed
  | failed
  | canceled
  | aborted
deriving DecidableEq, Repr

/-- What the worker loop does with a dequeued job identifier. -/
inductive WorkerAction
  | discard
  | execute
deriving DecidableEq, Repr

/-- `main.py` lines 115-126: the worker looks the dequeued id up in the job
table; a missing job (`if not job`) or a job whose status is `"aborted"` is
skipped with `continue`; any other job is set to `running` and the download
pipeline is invoked.  The argument is the table lookup result
(`jobs.get(job_id)`). -/
def workerDispatch : Option JobStatus → WorkerAction
  | none => WorkerAction.discard
  | some st => if st = JobStatus.aborted then WorkerAction.discard else WorkerAction.execute

/-- `main.py` lines 277-285 (`cancel_job` endpoint): only a `queued` job may
be canceled (otherwise HTTP 400 is raised, modelled as `Except.error`);
cancellation sets the status to `canceled`. -/
def cancelJob (st : JobStatus) : Except Unit JobStatus :=
  if st = JobStatus.queued then Except.ok JobStatus.canceled else Except.error ()

/-! ## Per-image fetch attempt loop (download_manager.py lines 343-368) -/

/-- Outcome of one HTTP GET for an image: a 2xx body, a 429 with an optional
`Retry-After` header, or a failure (`raise_for_status` / transport error)
carrying the status code that appears in the error text. -/
inductive Resp
  | ok (content : Nat)
  | rate429 (retryAfter : Option Nat)
  | err (code : Nat)
deriving DecidableEq, Repr

/-- Result of the `for attempt in range(3)` loop for a single image:
the fetched body if any, the number of GET requests issued, the sleeps
performed (seconds), whether `errors += 1` ran, and whether the final
failure's error text contained "400". -/
structure AttemptOut where
  fetched : Option Nat
  requests : Nat
  waits : List Nat
  errorInc : Bool
  failed400 : Bool
deriving DecidableEq, Repr

/-- `download_manager.py` lines 343-368, one iteration per element of the
attempt list (`range(3)` is `[0, 1, 2]`): a 429 sleeps `Retry-After`
(default 2) and `continue`s; a success appends the body and breaks; an
exception on `attempt == 2` records an error (noting whether "400" was in
the text), otherwise sleeps 1 second and retries.  `f` maps the attempt
index to the response received. -/
def attemptLoop (f : Nat → Resp) : List Nat → AttemptOut
  | [] => ⟨none, 0, [], false, false⟩
  | att :: rest =>
    match f att with
    | Resp.ok c => ⟨some c, 1, [], false, false⟩
    | Resp.rate429 d =>
      let o := attemptLoop f rest
      ⟨o.fetched, o.requests + 1, (d.getD 2) :: o.waits, o.errorInc, o.failed400⟩
    | Resp.err code =>
      if att == 2 then ⟨none, 1, [], true, code == 400⟩
      else
        let o := attemptLoop f rest
        ⟨o.fetched, o.requests + 1, 1 :: o.waits, o.errorInc, o.failed400⟩

/-- The full `for attempt in range(3)` loop. -/
def fetchAttempts (f : Nat → Resp) : AttemptOut := attemptLoop f [0, 1, 2]

/-- Sleep performed after a non-final failed attempt: `Retry-After`
(default 2) for a 429, 1 second otherwise. -/
def respWait : Resp → Nat
  | Resp.rate429 d => d.getD 2
  | _ => 1

/-- The attempt-budget semantics stated by the amended claim, written as a
function of the three responses: every failed attempt (429 or otherwise)
consumes one of the 3 attempts; the image is dropped once all 3 are spent;
an error is recorded only when the 3rd attempt fails with a non-429 error. -/
def attemptsSpec (r0 r1 r2 : Resp) : AttemptOut :=
  match r0 with
  | Resp.ok c => ⟨some c, 1, [], false, false⟩
  | f0 =>
    match r1 with
    | Resp.ok c => ⟨some c, 2, [respWait f0], false, false⟩
    | f1 =>
      match r2 with
      | Resp.ok c => ⟨some c, 3, [respWait f0, respWait f1], false, false⟩
      | Resp.rate429 d => ⟨none, 3, [respWait f0, respWait f1, d.getD 2], false, false⟩
      | Resp.err code => ⟨none, 3, [respWait f0, respWait f1], true, code == 400⟩

/-- Response script in which the first three requests are throttled with
`Retry-After: 2` and every request from the fourth on would succeed. -/
def throttledScript : Nat → Resp :=
  fun i => if i < 3 then Resp.rate429 (some 2) else Resp.ok 7

/-! ## Theorems for C1 and C2 -/

/-- C1: the claim says a job whose status is `canceled` when its identifier
is dequeued is discarded without execution.  The code (`main.py` lines
118-126) only discards missing jobs and jobs marked `aborted`: a job that
was canceled while queued (the only transition `cancel_job` allows) is
dequeued and executed by the worker, contradicting the claim and the
purpose of the `cancel` endpoint. -/
theorem canceled_job_is_executed :
    cancelJob JobStatus.queued = Except.ok JobStatus.canceled ∧
    workerDispatch (some JobStatus.canceled) = WorkerAction.execute :=
  ⟨rfl, rfl⟩

/-- C2 (counterexample): the claim says a 429 response triggers a retry that
does not consume one of the 3 fetch attempts.  Under that reading, with the
script that answers 429 to the first three requests and succeeds afterwards,
the image would be fetched.  The code's `continue` advances the
`for attempt in range(3)` loop, so the three 429s exhaust the budget: the
image is dropped (`fetched = none`) after exactly 3 requests, and no error
is recorded either. -/
theorem rate429_consumes_attempt_budget :
    fetchAttempts throttledScript = ⟨none, 3, [2, 2, 2], false, false⟩ := by
  decide

/-- C2 (amended): every failed attempt — a 429 just like any other failure —
consumes one of the 3 fetch attempts; a 429 sleeps the server-suggested
delay (default 2) and other non-final failures sleep 1 second before the
retry; the image is dropped once the 3 attempts are spent, and an error is
recorded only when the 3rd attempt fails with a non-429 error. -/
theorem fetch_attempt_budget (f : Nat → Resp) :
    fetchAttempts f = attemptsSpec (f 0) (f 1) (f 2) := by
  rcases h0 : f 0 with c0 | d0 | e0 <;>
    rcases h1 : f 1 with c1 | d1 | e1 <;>
      rcases h2 : f 2 with c2 | d2 | e2 <;>
        simp [fetchAttempts, attemptLoop, attemptsSpec, respWait, h0, h1, h2]

/-! ## Per-chapter image acquisition (download_manager.py lines 313-406) -/

/-- Which image-quality tier a URL path segment names: `"data"` (full
quality) or `"data-saver"` (reduced quality). -/
inductive DataKind
  | regular
  | saver
deriving DecidableEq, Repr

/-- `download_manager.py` lines 318-331: the configured preference picks the
primary tier; if the preferred tier's filename list is empty and the other
one is not, the other tier is substituted. -/
def selectTier (useDatasaver : Bool) (dataRegular dataSaver : List String) :
    List String × DataKind :=
  if useDatasaver then
    if dataSaver = [] ∧ dataRegular ≠ [] then (dataRegular, DataKind.regular)
    else (dataSaver, DataKind.saver)
  else
    if dataRegular = [] ∧ dataSaver ≠ [] then (dataSaver, DataKind.saver)
    else (dataRegular, DataKind.regular)

/-- Mutable state of the primary fetch loop: `image_bytes`,
`consecutive_400s`, and the job-level `errors` counter. -/
structure PassSt where
  images : List Nat
  consec400 : Nat
  errors : Nat
deriving DecidableEq, Repr

/-- `download_manager.py` lines 340-370: the primary pass over the selected
tier's filenames.  Per image, the 3-attempt loop runs; a success appends the
body and resets `consecutive_400s`; a recorded error increments `errors`
and, when the error text contained "400", `consecutive_400s`.  After each
image the loop breaks when `consecutive_400s >= 5` and the pass is on the
data-saver tier with a non-empty regular tier (`breakerOn`).  `script`
maps (image position, attempt) to the response. -/
def primaryPass (script : Nat → Nat → Resp) (breakerOn : Bool) :
    Nat → List String → PassSt → PassSt
  | _, [], st => st
  | i, _ :: rest, st =>
    let out := fetchAttempts (script i)
    let st' :=
      match out.fetched with
      | some c => { st with images := st.images ++ [c], consec400 := 0 }
      | none =>
        if out.errorInc then
          if out.failed400 then
            { st with errors := st.errors + 1, consec400 := st.consec400 + 1 }
          else { st with errors := st.errors + 1 }
        else st
    if breakerOn ∧ 5 ≤ st'.consec400 then st'
    else primaryPass script breakerOn (i + 1) rest st'

/-- `download_manager.py` lines 377-396: the fallback pass over the regular
tier's filenames.  Same 3-attempt loop per image, an error increments the
counter, and there is no consecutive-400 circuit breaker.  The accumulator
is (fetched bodies, errors counter). -/
def fallbackPass (script : Nat → Nat → Resp) :
    Nat → List String → List Nat × Nat → List Nat × Nat
  | _, [], acc => acc
  | i, _ :: rest, (imgs, errs) =>
    let out := fetchAttempts (script i)
    match out.fetched with
    | some c => fallbackPass script (i + 1) rest (imgs ++ [c], errs)
    | none =>
      fallbackPass script (i + 1) rest (imgs, if out.errorInc then errs + 1 else errs)

/-- `download_manager.py` lines 337-400 with the tier already selected:
run the primary pass; if it fetched nothing, the pass was on the data-saver
tier and the regular tier is non-empty, run the whole fallback pass over the
regular tier, snapshotting `errors_before = errors` (taken after the
abandoned pass) and restoring `errors = errors_before` when the fallback
fetched at least one image.  Returns (images, final errors counter);
`errors0` is the job-level counter on entry. -/
def runImageFetch (kind : DataKind) (data dataRegular : List String)
    (primaryScript fallbackScript : Nat → Nat → Resp) (errors0 : Nat) :
    List Nat × Nat :=
  let breakerOn := decide (kind = DataKind.saver ∧ dataRegular ≠ [])
  let st := primaryPass primaryScript breakerOn 0 data ⟨[], 0, errors0⟩
  if st.images = [] ∧ kind = DataKind.saver ∧ dataRegular ≠ [] then
    let errorsBefore := st.errors
    let fb := fallbackPass fallbackScript 0 dataRegular ([], errorsBefore)
    if fb.1 ≠ [] then (fb.1, errorsBefore) else fb
  else (st.images, st.errors)

/-- Tier selection followed by `runImageFetch`: the whole image-acquisition
step for one chapter. -/
def fetchChapterImages (useDatasaver : Bool) (dataRegular dataSaver : List String)
    (primaryScript fallbackScript : Nat → Nat → Resp) (errors0 : Nat) :
    List Nat × Nat :=
  let sel := selectTier useDatasaver dataRegular dataSaver
  runImageFetch sel.2 sel.1 dataRegular primaryScript fallbackScript errors0

/-! ## Theorems for C3 -/

/-- C3 (counterexample): the claim says that after a successful fallback the
job's error counter does not include the errors recorded during the
abandoned data-saver pass.  Concretely: prefer data-saver, one data-saver
file whose three attempts all fail with a 500, one regular file that
succeeds, error counter starting at 0.  The abandoned pass records exactly
one error; the fallback pass records none and succeeds; yet the final
counter is 1, not 0, because the code snapshots `errors_before` after the
abandoned pass and so restores a value that still contains its errors. -/
theorem fallback_keeps_abandoned_pass_errors :
    fetchChapterImages true ["b"] ["a"]
        (fun _ _ => Resp.err 500) (fun _ _ => Resp.ok 9) 0 = ([9], 1) := by
  decide

/-- C3 (amended): when the data-saver primary pass yields zero images and
the regular tier is non-empty, the whole fetch is retried against the
regular tier, and a fallback pass that fetches at least one image restores
the error counter to its value just after the abandoned pass — discarding
only the fallback pass's own errors, while the abandoned data-saver pass's
errors remain counted. -/
theorem fallback_discards_only_fallback_errors
    (ps fs : Nat → Nat → Resp) (dataRegular dataSaver : List String) (errors0 : Nat)
    (hsav : dataSaver ≠ []) (hreg : dataRegular ≠ [])
    (hprim : (primaryPass ps true 0 dataSaver ⟨[], 0, errors0⟩).images = [])
    (hfall : (fallbackPass fs 0 dataRegular
        ([], (primaryPass ps true 0 dataSaver ⟨[], 0, errors0⟩).errors)).1 ≠ []) :
    fetchChapterImages true dataRegular dataSaver ps fs errors0 =
      ((fallbackPass fs 0 dataRegular
          ([], (primaryPass ps true 0 dataSaver ⟨[], 0, errors0⟩).errors)).1,
        (primaryPass ps true 0 dataSaver ⟨[], 0, errors0⟩).errors) := by
  have hsel : selectTier true dataRegular dataSaver = (dataSaver, DataKind.saver) := by
    simp [selectTier, hsav]
  have hbrk : decide (DataKind.saver = DataKind.saver ∧ dataRegular ≠ []) = true := by
    simp [hreg]
  simp only [fetchChapterImages, hsel, runImageFetch, hbrk]
  simp [hprim, hreg, hfall]

/-- Witness for the amended C3 theorem at the counterexample's inputs. -/
theorem fallback_discards_only_fallback_errors_witness :
    fetchChapterImages true ["b"] ["a"]
        (fun _ _ => Resp.err 500) (fun _ _ => Resp.ok 9) 0 =
      ((fallbackPass (fun _ _ => Resp.ok 9) 0 ["b"]
          ([], (primaryPass (fun _ _ => Resp.err 500) true 0 ["a"] ⟨[], 0, 0⟩).errors)).1,
        (primaryPass (fun _ _ => Resp.err 500) true 0 ["a"] ⟨[], 0, 0⟩).errors) :=
  fallback_discards_only_fallback_errors
    (fun _ _ => Resp.err 500) (fun _ _ => Resp.ok 9) ["b"] ["a"] 0
    (by decide) (by decide) (by decide) (by decide)

/-! ## Rate-limit window acquisition (mangadex_client.py, download_manager.py) -/

/-- The client's two shared rate-limit windows (`mangadex_client.py` lines
15-16): `api_rps` (4 requests / 1 s) and `api_rpm` (100 requests / 60 s). -/
inductive Window
  | rps
  | rpm
deriving DecidableEq, Repr

/-- The request sites that issue outbound HTTP on behalf of a job. -/
inductive RequestSite
  | search
  | mangaDetail
  | chapterList
  | atHome
  | imageFetch
  | coverFetch
deriving DecidableEq, Repr

/-- Windows acquired (outermost first) before each site's request is
dispatched.  `search`, `mangaDetail` (metadata), `chapterList` (discovery)
and `atHome` (image-source resolution) all go through `_limited_get`
(`mangadex_client.py` lines 73-74: `async with self.api_rpm: async with
self.api_rps:`).  The per-image fetch (`download_manager.py` line 345:
`async with self.client.api_rps:`) and the cover download
(`download_manager.py` line 95: `async with self.client.api_rps:`) acquire
only the per-second window. -/
def windowsAcquired : RequestSite → List Window
  | RequestSite.search => [Window.rpm, Window.rps]
  | RequestSite.mangaDetail => [Window.rpm, Window.rps]
  | RequestSite.chapterList => [Window.rpm, Window.rps]
  | RequestSite.atHome => [Window.rpm, Window.rps]
  | RequestSite.imageFetch => [Window.rps]
  | RequestSite.coverFetch => [Window.rps]

/-! ## Theorems for C4 -/

/-- C4 (counterexample): the claim says every outbound request acquires both
rate-limit windows before dispatch.  The per-image fetch acquires only the
per-second window: the per-minute window is never taken
(`download_manager.py` line 345 enters `api_rps` alone). -/
theorem image_fetch_skips_rpm_window :
    windowsAcquired RequestSite.imageFetch = [Window.rps] ∧
    Window.rpm ∉ windowsAcquired RequestSite.imageFetch := by
  decide

/-- C4 (amended): every request site acquires the short per-second window;
the sites served by `_limited_get` (discovery, image-source resolution,
metadata/search) additionally acquire the sustained per-minute window, but
the per-image fetch and the cover download do not. -/
theorem window_acquisition_by_site (s : RequestSite) :
    Window.rps ∈ windowsAcquired s ∧
    (Window.rpm ∈ windowsAcquired s ↔
      (s ≠ RequestSite.imageFetch ∧ s ≠ RequestSite.coverFetch)) := by
  cases s <;> decide

/-! ## Archive packaging (download_manager.py lines 429-451) -/

/-- One archive entry: the metadata document or an image. -/
inductive EntryData
  | xml (text : String)
  | img (bytes : Nat)
deriving DecidableEq, Repr

/-- Filesystem view of one packaging run: the temporary `.cbz.tmp` file's
entries (if the file exists) and the entries of the file at the final
destination path (if one exists).  Initially neither exists. -/
structure ArchiveFS where
  tmp : Option (List (String × EntryData))
  final : Option (List (String × EntryData))
deriving DecidableEq, Repr

/-- Python's `"%03d" % idx` used for entry names (`f"{idx:03d}.jpg"`). -/
def pad3 (n : Nat) : String :=
  let s := toString n
  String.mk (List.replicate (3 - s.length) '0') ++ s

/-- The entry list the packager writes, in order: `ComicInfo.xml` first when
the metadata document is non-empty (`download_manager.py` lines 436-438),
then each image as a zero-padded 3-digit `.jpg` entry starting at 1
(lines 440-450). -/
def archiveEntries (comicInfoXml : String) (images : List Nat) :
    List (String × EntryData) :=
  (if comicInfoXml = "" then [] else [("ComicInfo.xml", EntryData.xml comicInfoXml)]) ++
    images.enum.map (fun p => (pad3 (p.1 + 1) ++ ".jpg", EntryData.img p.2))

/-- Sequential `zf.writestr` calls: `writeFails k` says whether the k-th
write raises.  On a raise the already-written entries are returned as the
error value (they are what the half-built temporary file holds). -/
def writeEntries (writeFails : Nat → Bool) :
    Nat → List (String × EntryData) → List (String × EntryData) →
    Except (List (String × EntryData)) (List (String × EntryData))
  | _, written, [] => Except.ok written
  | k, written, e :: rest =>
    if writeFails k then Except.error written
    else writeEntries writeFails (k + 1) (written ++ [e]) rest

/-- `download_manager.py` lines 435-451: the archive is built entry by entry
at the temporary path; only when every write succeeded does
`shutil.move(tmp_path, final_path)` run.  A raising write propagates out of
the `with` block before the move, leaving the partial archive at the
temporary path and nothing at the final path. -/
def packageChapter (comicInfoXml : String) (images : List Nat)
    (writeFails : Nat → Bool) : ArchiveFS :=
  match writeEntries writeFails 0 [] (archiveEntries comicInfoXml images) with
  | Except.ok written => { tmp := none, final := some written }
  | Except.error written => { tmp := some written, final := none }

/-! ## Theorems for C5 -/

/-- If some write within the entry list fails, the sequential write run
ends in an error. -/
theorem writeEntries_error_of_fail (writeFails : Nat → Bool) :
    ∀ (entries : List (String × EntryData)) (k : Nat)
      (written : List (String × EntryData)),
      (∃ j, j < entries.length ∧ writeFails (k + j) = true) →
      ∃ w, writeEntries writeFails k written entries = Except.error w := by
  intro entries
  induction entries with
  | nil =>
    intro k written h
    rcases h with ⟨j, hj, _⟩
    simp at hj
  | cons e rest ih =>
    intro k written h
    by_cases hk : writeFails k = true
    · exact ⟨written, by simp [writeEntries, hk]⟩
    · rcases h with ⟨j, hj, hfail⟩
      have hj0 : j ≠ 0 := by
        intro h0
        rw [h0] at hfail
        simp at hfail
        exact hk hfail
      rcases ih (k + 1) (written ++ [e])
          ⟨j - 1, by simp at hj; omega, by
            have : k + 1 + (j - 1) = k + j := by omega
            rw [this]; exact hfail⟩ with ⟨w, hw⟩
      refine ⟨w, ?_⟩
      simp [writeEntries, hk]
      exact hw

/-- C5: archive packaging is atomic with respect to the final destination
path.  For every execution in which one of the entry writes (metadata entry
or any image entry) fails, no file exists at the final destination path:
the exception propagates before `shutil.move` runs. -/
theorem package_failure_leaves_no_final_file
    (comicInfoXml : String) (images : List Nat) (writeFails : Nat → Bool)
    (h : ∃ j, j < (archiveEntries comicInfoXml images).length ∧ writeFails j = true) :
    (packageChapter comicInfoXml images writeFails).final = none := by
  rcases writeEntries_error_of_fail writeFails (archiveEntries comicInfoXml images) 0 []
      (by simpa using h) with ⟨w, hw⟩
  simp [packageChapter, hw]

/-- Witness: a metadata entry plus two images where the second image's write
(the third write overall) fails leaves the final destination path absent. -/
theorem package_failure_leaves_no_final_file_witness :
    (packageChapter "<ComicInfo/>" [10, 11] (fun k => k == 2)).final = none :=
  package_failure_leaves_no_final_file "<ComicInfo/>" [10, 11] (fun k => k == 2)
    ⟨2, by decide⟩

/-! ## Chapter descriptors and filtering (download_manager.py lines 238-286) -/

/-- Chapter descriptor fields used by the pipeline (`id`, and from
`attributes`: `volume`, `chapter`, `externalUrl`, `title`).  All are
optional in the upstream JSON. -/
structure Chapter where
  id : Option String
  volume : Option String
  chapter : Option String
  externalUrl : Option String
  title : Option String
deriving DecidableEq, Repr

/-- `chapter_str_to_float` (`download_manager.py` lines 242-248):
`float(str(chval))`, returning `None` when the value is absent or the parse
raises.  The numeric parse itself is a parameter `parse` — the filtering
theorems hold for every parse function, so no fidelity to CPython's exact
`float()` grammar is assumed; `pyFloat?` below is a concrete instance. -/
def chapterStrToFloat (parse : String → Option ℚ) : Option String → Option ℚ
  | none => none
  | some s => parse s

/-- Digit-string to number, `none` on the empty string or a non-digit. -/
def natOfDigits : List Char → Option Nat
  | [] => none
  | cs =>
    if cs.all Char.isDigit then
      some (cs.foldl (fun n c => n * 10 + (c.toNat - 48)) 0)
    else none

/-- Unsigned decimal numeral, optionally with a fractional part
(`"12"`, `"1.5"`, `"1."`, `".5"`). -/
def decimalOfChars (cs : List Char) : Option ℚ :=
  match cs.span (fun c => c ≠ '.') with
  | (ip, []) => (natOfDigits ip).map (fun n => (n : ℚ))
  | (ip, _ :: fp) =>
    if ip = [] ∧ fp = [] then none
    else
      match (if ip = [] then some 0 else natOfDigits ip),
          (if fp = [] then some 0 else natOfDigits fp) with
      | some i, some f => some ((i : ℚ) + (f : ℚ) / (10 : ℚ) ^ fp.length)
      | _, _ => none

/-- A concrete parse modelling Python `float()` on plain decimal numerals
with an optional sign (no exponent, infinity, nan, or surrounding
whitespace — chapter labels are plain numerals when numeric at all). -/
def pyFloat (s : String) : Option ℚ :=
  match s.data with
  | '-' :: rest => (decimalOfChars rest).map (fun q => -q)
  | '+' :: rest => decimalOfChars rest
  | cs => decimalOfChars cs

/-- `download_manager.py` lines 251-257: the chapter selector is a range
exactly when it has two elements and both parse; the endpoints are then
`(ch_start, ch_end)`. -/
def rangeEndpoints (parse : String → Option ℚ) (chaptersFilter : List String) :
    Option (ℚ × ℚ) :=
  match chaptersFilter with
  | [a, b] =>
    match parse a, parse b with
    | some x, some y => some (x, y)
    | _, _ => none
  | _ => none

/-- `include_chapter` (`download_manager.py` lines 259-279): the volume
predicate (string membership, chapters without a volume fail it when a
volume filter is set) and the chapter predicate (inclusive numeric range
when the selector is a two-element parseable range, verbatim string
membership otherwise) compose conjunctively. -/
def includeChapter (parse : String → Option ℚ) (volumesFilter chaptersFilter : List String)
    (ch : Chapter) : Bool :=
  let volOk :=
    if volumesFilter = [] then true
    else
      match ch.volume with
      | none => false
      | some v => volumesFilter.contains v
  let chOk :=
    if chaptersFilter = [] then true
    else
      match rangeEndpoints parse chaptersFilter with
      | some (a, b) =>
        match chapterStrToFloat parse ch.chapter with
        | none => false
        | some x => decide (a ≤ x ∧ x ≤ b)
      | none =>
        match ch.chapter with
        | none => false
        | some c => chaptersFilter.contains c
  volOk && chOk

/-- `download_manager.py` lines 281-286: the chapter list is filtered with
`include_chapter` only when a volume filter or a chapter filter is
configured; otherwise it is left untouched. -/
def filterChapters (parse : String → Option ℚ) (volumesFilter chaptersFilter : List String)
    (chapters : List Chapter) : List Chapter :=
  if volumesFilter ≠ [] ∨ chaptersFilter ≠ [] then
    chapters.filter (includeChapter parse volumesFilter chaptersFilter)
  else chapters

/-! ## Theorems for C6 and C7 -/

/-- C6: filtering with an empty filter spec (no volume filter and no chapter
filter configured) returns the identical chapter sequence, unchanged in
content and order. -/
theorem empty_filter_is_identity (parse : String → Option ℚ) (chapters : List Chapter) :
    filterChapters parse [] [] chapters = chapters := by
  simp [filterChapters]

/-- C7: when the chapter filter is a two-element list whose elements parse
as `a` and `b` with `a ≤ b`, every chapter retained by the filter has a
chapter-number label that parses to a number in the inclusive range
`[a, b]`; chapters whose label is missing or non-numeric are excluded. -/
theorem range_filter_retains_only_in_range
    (parse : String → Option ℚ) (volumesFilter : List String) (ca cb : String)
    (a b : ℚ) (chapters : List Chapter) (ch : Chapter)
    (ha : parse ca = some a) (hb : parse cb = some b) (hab : a ≤ b)
    (hmem : ch ∈ filterChapters parse volumesFilter [ca, cb] chapters) :
    ∃ s x, ch.chapter = some s ∧ parse s = some x ∧ a ≤ x ∧ x ≤ b := by
  have hne : volumesFilter ≠ [] ∨ ([ca, cb] : List String) ≠ [] := by
    right; simp
  rw [filterChapters, if_pos hne] at hmem
  have hinc : includeChapter parse volumesFilter [ca, cb] ch = true :=
    (List.mem_filter.mp hmem).2
  rw [includeChapter] at hinc
  simp only [Bool.and_eq_true] at hinc
  have hchOk := hinc.2
  have hre : rangeEndpoints parse [ca, cb] = some (a, b) := by
    simp [rangeEndpoints, ha, hb]
  rw [if_neg (by simp : ¬([ca, cb] : List String) = []), hre] at hchOk
  cases hch : ch.chapter with
  | none => rw [hch] at hchOk; simp [chapterStrToFloat] at hchOk
  | some s =>
    rw [hch] at hchOk
    cases hx : parse s with
    | none => rw [chapterStrToFloat, hx] at hchOk; simp at hchOk
    | some x =>
      rw [chapterStrToFloat, hx] at hchOk
      simp only [decide_eq_true_eq] at hchOk
      exact ⟨s, x, rfl, hx, hchOk.1, hchOk.2⟩

/-- Witness for C7 at concrete inputs: with the concrete decimal parse, the
range filter `["1", "3"]` retains the chapter labelled `"2"`, whose label
parses into the range. -/
theorem range_filter_retains_only_in_range_witness :
    ∃ s x, (Chapter.mk (some "c2") none (some "2") none none).chapter = some s ∧
      pyFloat s = some x ∧ (1 : ℚ) ≤ x ∧ x ≤ (3 : ℚ) :=
  range_filter_retains_only_in_range pyFloat [] "1" "3" 1 3
    [Chapter.mk (some "c2") none (some "2") none none]
    (Chapter.mk (some "c2") none (some "2") none none)
    (by decide) (by decide) (by norm_num)
    (by decide)

/-! ## Chapter discovery pagination (download_manager.py lines 201-236) -/

/-- Result of one `get_manga_chapters` call: a page (`data`, `total`), an
`httpx.HTTPStatusError` raised by `raise_for_status`, or any other
exception (transport failure etc.). -/
inductive PageResult
  | page (batch : List Chapter) (total : Nat)
  | httpErr (code : Nat)
  | exn
deriving Repr

/-- `download_manager.py` lines 206-236, the `while True` pagination loop
with the page size degradation.  `pageOf limit offset` is the upstream's
response to that request.  On `HTTPStatusError` with status 400 while
`limit != fallback_limit` (100), the same offset is retried once at limit
100; a second `HTTPStatusError` there, or any other HTTP error, substitutes
an empty page (`{"data": [], "total": 0}`) so the loop breaks and the
accumulated chapters are returned.  Any non-HTTP exception escapes to the
outer handler (lines 234-236), which also proceeds with the accumulated
list.  The loop stops on an empty batch or once the offset (advanced by the
batch length) reaches the reported total.  `fuel` bounds the unbounded
`while True` so the model is total; every claim is stated at an explicit
successor of `fuel`. -/
def listChaptersGo (pageOf : Nat → Nat → PageResult) :
    Nat → Nat → Nat → List Chapter → List Chapter
  | 0, _, _, acc => acc
  | fuel + 1, limit, offset, acc =>
    match pageOf limit offset with
    | PageResult.exn => acc
    | PageResult.httpErr c =>
      if c = 400 ∧ limit ≠ 100 then
        match pageOf 100 offset with
        | PageResult.page batch total =>
          if batch = [] then acc
          else if total ≤ offset + batch.length then acc ++ batch
          else listChaptersGo pageOf fuel 100 (offset + batch.length) (acc ++ batch)
        | PageResult.httpErr _ => acc
        | PageResult.exn => acc
      else acc
    | PageResult.page batch total =>
      if batch = [] then acc
      else if total ≤ offset + batch.length then acc ++ batch
      else listChaptersGo pageOf fuel limit (offset + batch.length) (acc ++ batch)

/-- The whole chapter-discovery phase: paging starts at limit 500,
offset 0, with an empty accumulator. -/
def listChapters (pageOf : Nat → Nat → PageResult) (fuel : Nat) : List Chapter :=
  listChaptersGo pageOf fuel 500 0 []

/-! ## Theorem for C8 -/

/-- C8: discovery never propagates an HTTP error (the model returns a plain
chapter list — every error branch of the source feeds the loop an empty
page or falls to the partial-result handler).  Concretely, at any loop
step: (1) a 400 at a non-degraded page size is retried once at page size
100 from the same offset, and a successful retry's batch is consumed
exactly like a normal page; (2) if the degraded retry also fails with an
HTTP error, the accumulated chapters are returned; (3) any other HTTP
error (non-400, or 400 when already degraded) also ends discovery with the
accumulated chapters. -/
theorem discovery_absorbs_http_errors
    (pageOf : Nat → Nat → PageResult) (fuel limit offset : Nat) (acc : List Chapter) :
    (∀ batch total, pageOf limit offset = PageResult.httpErr 400 → limit ≠ 100 →
      pageOf 100 offset = PageResult.page batch total → batch ≠ [] →
      listChaptersGo pageOf (fuel + 1) limit offset acc =
        (if total ≤ offset + batch.length then acc ++ batch
          else listChaptersGo pageOf fuel 100 (offset + batch.length) (acc ++ batch))) ∧
    (∀ c, pageOf limit offset = PageResult.httpErr 400 → limit ≠ 100 →
      pageOf 100 offset = PageResult.httpErr c →
      listChaptersGo pageOf (fuel + 1) limit offset acc = acc) ∧
    (∀ c, pageOf limit offset = PageResult.httpErr c → (c ≠ 400 ∨ limit = 100) →
      listChaptersGo pageOf (fuel + 1) limit offset acc = acc) := by
  refine ⟨?_, ?_, ?_⟩
  · intro batch total h400 hlim hretry hne
    simp [listChaptersGo, h400, hlim, hretry, hne]
  · intro c h400 hlim hretry
    simp [listChaptersGo, h400, hlim, hretry]
  · intro c herr hcase
    rcases hcase with hc | hl
    · simp [listChaptersGo, herr, hc]
    · subst hl
      simp [listChaptersGo, herr]

/-- Upstream script for the C8 witness: the large-limit request for offset 0
is rejected with a 400; the degraded retry at limit 100 returns a final
two-chapter page. -/
def degradedPageScript : Nat → Nat → PageResult :=
  fun limit _ =>
    if limit = 500 then PageResult.httpErr 400
    else PageResult.page
      [Chapter.mk (some "c1") none (some "1") none none,
        Chapter.mk (some "c2") none (some "2") none none] 2

/-- Witness for C8: on the degraded-retry script, discovery returns the two
chapters of the retried page instead of failing. -/
theorem discovery_absorbs_http_errors_witness :
    listChaptersGo degradedPageScript 1 500 0 [] =
      [Chapter.mk (some "c1") none (some "1") none none,
        Chapter.mk (some "c2") none (some "2") none none] := by
  have h := (discovery_absorbs_http_errors degradedPageScript 0 500 0 []).1
    [Chapter.mk (some "c1") none (some "1") none none,
      Chapter.mk (some "c2") none (some "2") none none] 2
    rfl (by decide) rfl (by decide)
  simpa using h

/-! ## Rate-limited client: 401 handling (mangadex_client.py lines 49-92) -/

/-- The client's credential state: current access token and refresh token
(`_access_token`, `_refresh_token`). -/
structure ClientState where
  accessToken : Option String
  refreshToken : Option String
deriving DecidableEq, Repr

/-- Result of `_refresh_auth`: its boolean return value, the credential
state afterwards, and how many refresh-credential exchanges were made
(0 when no refresh token was available, 1 otherwise). -/
structure RefreshOut where
  ok : Bool
  st : ClientState
  exchanges : Nat
deriving DecidableEq, Repr

/-- `_refresh_auth` (`mangadex_client.py` lines 49-69): with no refresh
token it returns `False` without any exchange; otherwise one refresh-token
grant is posted.  `refreshResp i` is the outcome of the i-th exchange:
`none` for a failure (non-200 response, or a 200 without an access token),
or `some (newAccess, maybeNewRefresh)` for a success; on success the access
token is replaced and the refresh token is replaced only when the response
carried one (`data.get("refresh_token") or self._refresh_token`). -/
def refreshAuth (refreshResp : Nat → Option (String × Option String))
    (ri : Nat) (st : ClientState) : RefreshOut :=
  match st.refreshToken with
  | none => ⟨false, st, 0⟩
  | some _ =>
    match refreshResp ri with
    | some (tok, newRefresh) =>
      ⟨true,
        { accessToken := some tok,
          refreshToken :=
            match newRefresh with
            | some r => some r
            | none => st.refreshToken },
        1⟩
    | none => ⟨false, st, 1⟩

/-- `r.raise_for_status()`: 4xx/5xx raise the status, others return it. -/
def raiseForStatus (code : Nat) : Except Nat Nat :=
  if 400 ≤ code then Except.error code else Except.ok code

/-- Result of one `_limited_get` call: the raised-or-returned status, the
number of GET requests issued, the number of refresh-credential exchanges
performed, and the credential state afterwards. -/
structure GetOutcome where
  result : Except Nat Nat
  gets : Nat
  refreshes : Nat
  st : ClientState
deriving Repr

/-- `_limited_get` (`mangadex_client.py` lines 71-92), entered after
`_ensure_auth` with credential state `st`.  `getResp i tok` is the status
of the i-th GET when sent with bearer token `tok`.  A 429 sleeps and
recurses; a 5xx sleeps 1 s and recurses (both without a retry ceiling, so
the model carries `fuel`; `none` marks the cut-off of that unbounded
recursion).  A 401 triggers exactly one `_refresh_auth`; on success the
request is resent once with the refreshed headers and that response goes
to `raise_for_status`; on failure the original 401 goes to
`raise_for_status`.  Every other status goes to `raise_for_status`
directly. -/
def limitedGet (getResp : Nat → Option String → Nat)
    (refreshResp : Nat → Option (String × Option String)) :
    Nat → Nat → Nat → ClientState → Option GetOutcome
  | 0, _, _, _ => none
  | fuel + 1, g, ri, st =>
    let code := getResp g st.accessToken
    if code = 429 then
      (limitedGet getResp refreshResp fuel (g + 1) ri st).map
        (fun o => { o with gets := o.gets + 1 })
    else if 500 ≤ code ∧ code < 600 then
      (limitedGet getResp refreshResp fuel (g + 1) ri st).map
        (fun o => { o with gets := o.gets + 1 })
    else if code = 401 then
      let ro := refreshAuth refreshResp ri st
      if ro.ok then
        some ⟨raiseForStatus (getResp (g + 1) ro.st.accessToken), 2, ro.exchanges, ro.st⟩
      else some ⟨raiseForStatus code, 1, ro.exchanges, ro.st⟩
    else some ⟨raiseForStatus code, 1, 0, st⟩

/-! ## Theorem for C9 -/

/-- C9: when a request's response is HTTP 401, the client performs at most
one refresh-credential exchange.  With no refresh token, no exchange
happens and the 401 propagates; with a refresh token but a failing
exchange, exactly one exchange happens and the 401 propagates; with a
successful exchange, the original request is retried exactly once with the
new access token and that response's status is what `raise_for_status`
sees — there is no second refresh and no second retry. -/
theorem http401_single_refresh_single_retry
    (getResp : Nat → Option String → Nat)
    (refreshResp : Nat → Option (String × Option String))
    (fuel g ri : Nat) (st : ClientState)
    (h401 : getResp g st.accessToken = 401) :
    (st.refreshToken = none →
      limitedGet getResp refreshResp (fuel + 1) g ri st =
        some ⟨Except.error 401, 1, 0, st⟩) ∧
    (∀ rt, st.refreshToken = some rt → refreshResp ri = none →
      limitedGet getResp refreshResp (fuel + 1) g ri st =
        some ⟨Except.error 401, 1, 1, st⟩) ∧
    (∀ rt tok newRefresh, st.refreshToken = some rt →
      refreshResp ri = some (tok, newRefresh) →
      limitedGet getResp refreshResp (fuel + 1) g ri st =
        some ⟨raiseForStatus (getResp (g + 1) (some tok)), 2, 1,
          { accessToken := some tok,
            refreshToken :=
              match newRefresh with
              | some r => some r
              | none => st.refreshToken }⟩) := by
  refine ⟨?_, ?_, ?_⟩
  · intro hrt
    simp [limitedGet, h401, refreshAuth, hrt, raiseForStatus]
  · intro rt hrt hfail
    simp [limitedGet, h401, refreshAuth, hrt, hfail, raiseForStatus]
  · intro rt tok newRefresh hrt hok
    simp [limitedGet, h401, refreshAuth, hrt, hok]

/-- Witness for C9: a concrete run in which the first GET under token `t1`
is a 401, the refresh exchange yields token `t2` (no new refresh token),
and the retried GET succeeds with a 200: one refresh, two GETs, `200`
returned, and the refreshed state keeps the old refresh token. -/
theorem http401_single_refresh_single_retry_witness :
    limitedGet (fun g _ => if g = 0 then 401 else 200)
        (fun _ => some ("t2", none)) 1 0 0 ⟨some "t1", some "r1"⟩ =
      some ⟨Except.ok 200, 2, 1, ⟨some "t2", some "r1"⟩⟩ := by
  have h := (http401_single_refresh_single_retry
      (fun g _ => if g = 0 then 401 else 200) (fun _ => some ("t2", none))
      0 0 0 ⟨some "t1", some "r1"⟩ rfl).2.2 "r1" "t2" none rfl rfl
  simpa [raiseForStatus] using h

/-! ## The per-job chapter loop (download_manager.py lines 287-468) -/

/-- Python truthiness of an optional string (`None` and `""` are falsy). -/
def truthyStr : Option String → Bool
  | none => false
  | some s => s ≠ ""

/-- The at-home resolution payload for one chapter: `baseUrl`,
`chapter.hash`, and the two tier filename lists. -/
structure AtHomeInfo where
  baseUrl : Option String
  hash : Option String
  dataFiles : List String
  dataSaverFiles : List String
deriving Repr

/-- Per-chapter oracle: the at-home lookup result (`none` models
`get_at_home` raising, line 306-312), the response scripts for the primary
and fallback image passes, and the write-failure script for the packaging
step. -/
structure ChapterEnv where
  atHome : Option AtHomeInfo
  primaryScript : Nat → Nat → Resp
  fallbackScript : Nat → Nat → Resp
  writeFails : Nat → Bool

/-- Python `x or y` for an optional string against a default
(`ch.get("attributes", {}).get("chapter") or chapter_id`). -/
def orElseStr (x : Option String) (y : String) : String :=
  match x with
  | none => y
  | some s => if s = "" then y else s

/-- Strip leading and trailing spaces (after the character filter below,
spaces are the only whitespace left, so Python `strip()` reduces to this). -/
def stripSpaces (cs : List Char) : List Char :=
  ((cs.dropWhile (fun c => c = ' ')).reverse.dropWhile (fun c => c = ' ')).reverse

/-- `download_manager.py` line 427: keep alphanumerics and `" -_."`, then
strip. -/
def sanitizeTitle (t : String) : String :=
  String.mk (stripSpaces (t.data.filter (fun c => c.isAlphanum ∨ c ∈ [' ', '-', '_', '.'])))

/-- `download_manager.py` lines 425-428: the archive filename is
`c{number} {sanitized title}.cbz`, or `c{number}.cbz` when the sanitized
title is empty; the number falls back to the chapter id when the label is
falsy. -/
def deriveFilename (ch : Chapter) (chapterId : String) : String :=
  let chapterNumber := orElseStr ch.chapter chapterId
  let safeTitle := sanitizeTitle (orElseStr ch.title "")
  if safeTitle = "" then "c" ++ chapterNumber ++ ".cbz"
  else "c" ++ chapterNumber ++ " " ++ safeTitle ++ ".cbz"

/-- Mutable per-job counters of the chapter loop (`download_manager.py`
lines 287-291): `created_files`, `skipped_chapters`, `skipped_external`,
`skipped_no_images`, `errors`. -/
structure LoopSt where
  created : List String
  skipped : Nat
  skippedExternal : Nat
  skippedNoImages : Nat
  errors : Nat
deriving DecidableEq, Repr

/-- One iteration of `for ch in chapters` (`download_manager.py` lines
294-453): skip chapters without an id; skip external chapters; a failed
at-home lookup counts an error and a skip; select the tier and skip when
base url, hash or the selected list is missing; fetch the images (primary
pass plus data-saver fallback); skip when nothing was fetched; otherwise
package the archive — a failing entry write raises out of the job
(`Except.error`), a successful packaging appends the final path.
Non-counter side effects (series metadata download, scan triggering) are
wrapped in their own exception handlers in the source and do not touch the
counters, so they are not modelled. -/
def processChapter (useDatasaver : Bool) (comicInfoXml : String)
    (ch : Chapter) (env : ChapterEnv) (st : LoopSt) : Except Unit LoopSt :=
  if ¬ truthyStr ch.id then Except.ok { st with skipped := st.skipped + 1 }
  else if truthyStr ch.externalUrl then
    Except.ok { st with
      skippedExternal := st.skippedExternal + 1
      skipped := st.skipped + 1 }
  else
    match env.atHome with
    | none =>
      Except.ok { st with errors := st.errors + 1, skipped := st.skipped + 1 }
    | some ah =>
      if ¬ (truthyStr ah.baseUrl ∧ truthyStr ah.hash ∧
          (selectTier useDatasaver ah.dataFiles ah.dataSaverFiles).1 ≠ []) then
        Except.ok { st with
          skippedNoImages := st.skippedNoImages + 1
          skipped := st.skipped + 1 }
      else if (runImageFetch (selectTier useDatasaver ah.dataFiles ah.dataSaverFiles).2
          (selectTier useDatasaver ah.dataFiles ah.dataSaverFiles).1 ah.dataFiles
          env.primaryScript env.fallbackScript st.errors).1 = [] then
        Except.ok { st with
          skippedNoImages := st.skippedNoImages + 1
          skipped := st.skipped + 1
          errors := (runImageFetch (selectTier useDatasaver ah.dataFiles ah.dataSaverFiles).2
            (selectTier useDatasaver ah.dataFiles ah.dataSaverFiles).1 ah.dataFiles
            env.primaryScript env.fallbackScript st.errors).2 }
      else
        match writeEntries env.writeFails 0 []
            (archiveEntries comicInfoXml
              (runImageFetch (selectTier useDatasaver ah.dataFiles ah.dataSaverFiles).2
                (selectTier useDatasaver ah.dataFiles ah.dataSaverFiles).1 ah.dataFiles
                env.primaryScript env.fallbackScript st.errors).1) with
        | Except.error _ => Except.error ()
        | Except.ok _ =>
          Except.ok { st with
            created := st.created ++ [deriveFilename ch (orElseStr ch.id "")]
            errors := (runImageFetch (selectTier useDatasaver ah.dataFiles ah.dataSaverFiles).2
              (selectTier useDatasaver ah.dataFiles ah.dataSaverFiles).1 ah.dataFiles
              env.primaryScript env.fallbackScript st.errors).2 }

/-- The whole `for ch in chapters` loop: each chapter paired with its
oracle; a packaging exception aborts the job. -/
def processChapters (useDatasaver : Bool) (comicInfoXml : String) :
    List (Chapter × ChapterEnv) → LoopSt → Except Unit LoopSt
  | [], st => Except.ok st
  | (ch, env) :: rest, st =>
    match processChapter useDatasaver comicInfoXml ch env st with
    | Except.error e => Except.error e
    | Except.ok st' => processChapters useDatasaver comicInfoXml rest st'

/-- The result summary built at `download_manager.py` lines 456-464. -/
structure JobSummary where
  chaptersProcessed : Nat
  chaptersPackaged : Nat
  filesCreated : List String
  skippedChapters : Nat
  skippedExternal : Nat
  skippedNoImages : Nat
  errors : Nat
deriving DecidableEq, Repr

/-- `process_job` from the filtered chapter list on (`download_manager.py`
lines 287-468): run the chapter loop from zeroed counters and package the
summary; an uncaught packaging exception fails the job and no summary is
produced. -/
def processJob (useDatasaver : Bool) (comicInfoXml : String)
    (items : List (Chapter × ChapterEnv)) : Except Unit JobSummary :=
  match processChapters useDatasaver comicInfoXml items ⟨[], 0, 0, 0, 0⟩ with
  | Except.error e => Except.error e
  | Except.ok st =>
    Except.ok
      { chaptersProcessed := items.length
        chaptersPackaged := st.created.length
        filesCreated := st.created
        skippedChapters := st.skipped
        skippedExternal := st.skippedExternal
        skippedNoImages := st.skippedNoImages
        errors := st.errors }

/-! ## Theorems for C10 -/

/-- Each loop iteration counts its chapter exactly once: either a file is
appended or the skip counter grows by one, and the external/no-images
sub-counters grow only together with the skip counter. -/
theorem processChapter_counts (useDatasaver : Bool) (comicInfoXml : String)
    (ch : Chapter) (env : ChapterEnv) (st st' : LoopSt)
    (h : processChapter useDatasaver comicInfoXml ch env st = Except.ok st') :
    st'.created.length + st'.skipped = st.created.length + st.skipped + 1 ∧
    st'.skippedExternal + st'.skippedNoImages ≤
      st.skippedExternal + st.skippedNoImages + (st'.skipped - st.skipped) ∧
    st.skipped ≤ st'.skipped := by
  rw [processChapter] at h
  split at h
  · cases h
    simp
    omega
  · split at h
    · cases h
      simp
      omega
    · split at h
      · cases h
        simp
        omega
      · split at h
        · cases h
          simp
          omega
        · split at h
          · cases h
            simp
            omega
          · split at h
            · cases h
            · cases h
              simp
              omega

/-- The loop preserves the counting invariant relative to the number of
chapters consumed. -/
theorem processChapters_counts (useDatasaver : Bool) (comicInfoXml : String) :
    ∀ (items : List (Chapter × ChapterEnv)) (st st' : LoopSt),
      processChapters useDatasaver comicInfoXml items st = Except.ok st' →
      st'.created.length + st'.skipped =
        st.created.length + st.skipped + items.length ∧
      st'.skippedExternal + st'.skippedNoImages ≤
        st.skippedExternal + st.skippedNoImages + (st'.skipped - st.skipped) ∧
      st.skipped ≤ st'.skipped := by
  intro items
  induction items with
  | nil =>
    intro st st' h
    rw [processChapters] at h
    cases h
    simp
  | cons p rest ih =>
    intro st st' h
    rcases p with ⟨ch, env⟩
    rw [processChapters] at h
    cases hstep : processChapter useDatasaver comicInfoXml ch env st with
    | error e => rw [hstep] at h; cases h
    | ok stMid =>
      rw [hstep] at h
      rcases processChapter_counts useDatasaver comicInfoXml ch env st stMid hstep
        with ⟨h1, h2, h3⟩
      rcases ih stMid st' h with ⟨g1, g2, g3⟩
      refine ⟨by simp; omega, by omega, by omega⟩

/-- C10: for every job that runs to completion, the summary satisfies
`chapters_processed = chapters_packaged + skipped_chapters` and
`skipped_external + skipped_no_images ≤ skipped_chapters`: each retained
chapter is counted exactly once, as packaged (its archive path appearing in
`files_created`, whose length is `chapters_packaged`) or as skipped. -/
theorem job_summary_counts_each_chapter_once
    (useDatasaver : Bool) (comicInfoXml : String)
    (items : List (Chapter × ChapterEnv)) (s : JobSummary)
    (h : processJob useDatasaver comicInfoXml items = Except.ok s) :
    s.chaptersProcessed = s.chaptersPackaged + s.skippedChapters ∧
    s.skippedExternal + s.skippedNoImages ≤ s.skippedChapters ∧
    s.chaptersPackaged = s.filesCreated.length := by
  rw [processJob] at h
  cases hrun : processChapters useDatasaver comicInfoXml items ⟨[], 0, 0, 0, 0⟩ with
  | error e => rw [hrun] at h; cases h
  | ok st =>
    rw [hrun] at h
    cases h
    rcases processChapters_counts useDatasaver comicInfoXml items ⟨[], 0, 0, 0, 0⟩ st hrun
      with ⟨h1, h2, h3⟩
    simp at h1 h2
    refine ⟨by simp; omega, by simp; omega, by simp⟩

/-- Oracle for the C10 witness: images resolve and fetch on the first
attempt and all writes succeed. -/
def smoothEnv : ChapterEnv :=
  ⟨some ⟨some "https://h", some "hash", ["p1", "p2"], []⟩,
    fun _ _ => Resp.ok 5, fun _ _ => Resp.ok 5, fun _ => false⟩

/-- Oracle for the C10 witness's second chapter: the at-home lookup
raises, so the chapter is skipped with an error. -/
def failingLookupEnv : ChapterEnv :=
  ⟨none, fun _ _ => Resp.ok 5, fun _ _ => Resp.ok 5, fun _ => false⟩

/-- Witness for C10: a two-chapter job — one packaged, one skipped on a
failed at-home lookup — satisfies the counting invariant. -/
theorem job_summary_counts_each_chapter_once_witness :
    (2 : Nat) = 1 + 1 ∧ (0 : Nat) + 0 ≤ 1 ∧ (1 : Nat) = [("c1.cbz" : String)].length := by
  have h := job_summary_counts_each_chapter_once false ""
    [(Chapter.mk (some "id1") none (some "1") none none, smoothEnv),
      (Chapter.mk (some "id2") none (some "2") none none, failingLookupEnv)]
    ⟨2, 1, ["c1.cbz"], 1, 0, 0, 1⟩
    (by rfl)
  exact h
